import Mathlib

/-!
Shallow embedding of the gumble Mumble-client core (files gumble/client.go and
gumble/channel.go) for checking the natural-language specification against the
code.  Go machine integers that matter here (packet lengths, channel ids) are
modelled as `Nat`; Go nil pointers and nil maps are modelled as `Option`/`none`;
Go errors are an explicit error type.  External effects (TLS dial, Opus encoder
creation, socket reads) enter the model as explicit oracle arguments, and the
observable actions of `Connect` are recorded as a step trace.
-/

namespace Gumble

/-- Connection handle.  The model only tracks presence and identity of the
TLS connection object, not its contents. -/
abbrev Conn := Nat

/-- State is the current state of the client's connection to the server
(client.go lines 18-31). -/
inductive State where
  | disconnected
  | connected
  | synced
deriving DecidableEq, Repr

/-- The type tag of a DisconnectEvent (event.go is not under src/; the tags
DisconnectUser and DisconnectError are the ones client.go constructs, and the
spec names Kicked and Banned as the remaining tags). -/
inductive DisconnectType where
  | user
  | error
  | kicked
  | banned
deriving DecidableEq, Repr

/-- Errors visible to the caller.  `errState` is the package-level
`ErrState = errors.New("client is in an invalid state")` of client.go line 55;
`other` wraps an error produced by an external collaborator (gopus, TLS). -/
inductive GErr where
  | errState
  | other (msg : String)
deriving DecidableEq, Repr

/-- Events delivered to the configured listener.  Only disconnect events are
produced by the code under verification. -/
inductive GEvent where
  | disconnect (t : DisconnectType)
deriving DecidableEq, Repr

/-- The Opus application profile passed to gopus.NewEncoder. -/
inductive OpusApplication where
  | voip
  | audio
  | restrictedLowDelay
deriving DecidableEq, Repr

/-- Observable state of the gopus encoder as configured by Connect. -/
structure EncoderState where
  sampleRate : Nat
  channels : Nat
  application : OpusApplication
  vbr : Bool
deriving DecidableEq, Repr

/-- Modelled from the spec: `AudioSampleRate` is declared in an audio source
file that is not under src/; the spec fixes it as
`Encoder: new(sample_rate=48000, channels=1, profile=VoIP)`. -/
def AudioSampleRate : Nat := 48000

/-- The relevant fields of gumble.Config (config.go is not under src/; the
fields below are exactly the ones client.go reads: Dialer and TlsConfig are
folded into the dial oracle, Address, Username, Password, Tokens are read by
Connect, and Listener by close). -/
structure Config where
  address : String
  username : String
  password : String
  tokens : List String
  hasListener : Bool
deriving DecidableEq, Repr

/-- Outbound protocol messages constructed by the code under verification,
with exactly the fields each construction site sets (unset protobuf pointer
fields are `none`). -/
inductive Msg where
  | version (semVer : Nat × Nat × Nat) (release os osVersion : String)
  | authenticate (username password : String) (tokens : List String) (opus : Bool)
  | ping (timestamp : Nat)
  | channelState (channelId parent : Option Nat) (name description : Option String)
      (temporary : Option Bool)
  | channelRemove (channelId : Nat)
  | userList
  | banList (query : Bool)
deriving DecidableEq, Repr

/-- The Client struct of client.go lines 58-81.  The mutexes and the `end`
channel are concurrency devices with no sequential content and are omitted;
the zero-valued `server.version` field is kept as an Option. -/
structure ClientState where
  config : Config
  state : State
  self : Option Nat
  serverVersion : Option (Nat × Nat × Nat)
  connection : Option Conn
  users : Option (List Nat)
  channels : Option (List Nat)
  contextActions : Option (List String)
  audioEncoder : Option EncoderState
  audioSequence : Nat
  audioTarget : Option Nat
deriving DecidableEq, Repr

/-- NewClient (client.go lines 84-93): returns nil if config is nil, otherwise
a client holding the config with state StateDisconnected and every other field
at its Go zero value. -/
def NewClient (config : Option Config) : Option ClientState :=
  match config with
  | none => none
  | some cfg => some
      { config := cfg
        state := State.disconnected
        self := none
        serverVersion := none
        connection := none
        users := none
        channels := none
        contextActions := none
        audioEncoder := none
        audioSequence := 0
        audioTarget := none }

/-- Modelled from the spec: `protoMessage.writeTo` is defined in a source file
that is not under src/ (client.go only calls `message.writeTo(c, c.connection)`).
The spec states of send: "if the connection is nil, fails with InvalidState;
encodes and writes"; since Send in client.go performs no nil check itself, the
check is modelled here.  The result is the list of frames put on the wire. -/
def Msg.writeTo (m : Msg) (conn : Option Conn) : Except GErr (List Msg) :=
  match conn with
  | none => Except.error GErr.errState
  | some _ => Except.ok [m]

/-- Send (client.go lines 304-312): under the send mutex, write the message to
the current connection; propagate a write error, otherwise succeed.  The method
never assigns a Client field, which the model renders as returning the client
unchanged; the third component is the list of frames written. -/
def Send (c : ClientState) (m : Msg) : ClientState × Except GErr Unit × List Msg :=
  match m.writeTo c.connection with
  | Except.error e => (c, Except.error e, [])
  | Except.ok written => (c, Except.ok (), written)

/-- The field assignments performed by close (client.go lines 246-253) once the
connection is known to be live: connection, users, channels, contextActions,
self and audioEncoder become nil and the state becomes StateDisconnected. -/
def clearedClient (c : ClientState) : ClientState :=
  { c with
    connection := none
    state := State.disconnected
    users := none
    channels := none
    contextActions := none
    self := none
    audioEncoder := none }

/-- close (client.go lines 238-259): under the close mutex, return ErrState if
the connection is already nil; otherwise signal the ping fiber, close and clear
the connection, reset the world model, and deliver the disconnect event to the
listener when one is configured.  The result is (returned error, client after
the call, events delivered). -/
def close (c : ClientState) (eventType : DisconnectType) :
    Option GErr × ClientState × List GEvent :=
  match c.connection with
  | none => (some GErr.errState, c, [])
  | some _ =>
      (none, clearedClient c,
        if c.config.hasListener then [GEvent.disconnect eventType] else [])

/-- Disconnect (client.go lines 231-236): close with a DisconnectUser event. -/
def Disconnect (c : ClientState) : Option GErr × ClientState × List GEvent :=
  close c DisconnectType.user

/-- maximumPacketSize (client.go line 52): the maximum length in bytes of a
packet that will be accepted from the server — 10 megabytes. -/
def maximumPacketSize : Nat := 1024 * 1024 * 10

/-- One read attempt on the TLS stream as seen by readRoutine: either a framed
packet header (type, declared length) followed by the bytes available for the
payload read, or an I/O error (which includes a deadline miss). -/
inductive ReadItem where
  | packet (ptype plength : Nat) (payload : List Nat)
  | readErr

/-- A registered packet handler: given the client and the payload bytes it
returns the updated client and the events it emitted.  The handler table
(handlers.go) is not under src/, so the table is a parameter of the loop;
only its presence or absence at a given type id is relevant here. -/
abbrev Handler := ClientState → List Nat → ClientState × List GEvent

/-- The loop body of readRoutine (client.go lines 180-204): read a header; on
read error return; if the declared length exceeds maximumPacketSize return
without reading the payload; on a short payload read return; otherwise invoke
the registered handler if any and continue with the next packet. -/
def readLoop (handlers : Nat → Option Handler) :
    List ReadItem → ClientState → ClientState × List GEvent
  | [], c => (c, [])
  | ReadItem.readErr :: _, c => (c, [])
  | ReadItem.packet pt pl payload :: rest, c =>
      if pl > maximumPacketSize then (c, [])
      else if payload.length < pl then (c, [])
      else
        match handlers pt with
        | some h =>
            ((readLoop handlers rest (h c (payload.take pl)).1).1,
              (h c (payload.take pl)).2
                ++ (readLoop handlers rest (h c (payload.take pl)).1).2)
        | none => readLoop handlers rest c

/-- readRoutine (client.go lines 171-205): run the read loop over the incoming
stream, then perform the deferred close with a DisconnectError event.  The
result is the final client state and every event delivered during the run. -/
def readRoutine (handlers : Nat → Option Handler) (input : List ReadItem)
    (c : ClientState) : ClientState × List GEvent :=
  ((close (readLoop handlers input c).1 DisconnectType.error).2.1,
    (readLoop handlers input c).2
      ++ (close (readLoop handlers input c).1 DisconnectType.error).2.2)

/-- The gopus encoder as Connect configures it (client.go lines 100-104):
AudioSampleRate, 1 channel, VoIP application, then SetVbr(false). -/
def initialEncoder : EncoderState :=
  { sampleRate := AudioSampleRate
    channels := 1
    application := OpusApplication.voip
    vbr := false }

/-- The Version message Connect sends (client.go lines 125-137): semantic
version 1.2.4, release "gumble", and the runtime-provided OS and architecture
strings. -/
def versionMsg (goos goarch : String) : Msg :=
  Msg.version (1, 2, 4) "gumble" goos goarch

/-- The Authenticate message Connect sends (client.go lines 138-143). -/
def authMsg (cfg : Config) : Msg :=
  Msg.authenticate cfg.username cfg.password cfg.tokens true

/-- One observable step of Connect, recorded in execution order. -/
inductive Step where
  | newEncoder (sampleRate channels : Nat) (application : OpusApplication)
  | dial (address : String)
  | allocWorld
  | setConnected
  | spawnRead
  | spawnPing
  | send (m : Msg)
deriving DecidableEq, Repr

/-- The outcome of a Connect call: the returned error if any, the client state
after the call, and the trace of observable steps in execution order. -/
structure ConnectResult where
  err : Option GErr
  st : ClientState
  steps : List Step
deriving DecidableEq, Repr

/-- Connect (client.go lines 96-147).  The two external calls are oracles:
`encRes` stands for gopus.NewEncoder(AudioSampleRate, 1, gopus.Voip) and
`dialRes` for tls.DialWithDialer; `goos` and `goarch` stand for runtime.GOOS
and runtime.GOARCH.  In source order: the state guard; encoder creation (on
success SetVbr(false), store the encoder, reset audioSequence and audioTarget);
the TLS dial (on failure clear audioEncoder and return the error); allocation
of the empty world model; the transition to StateConnected; starting the read
and ping goroutines; sending the Version and Authenticate messages. -/
def Connect (goos goarch : String) (encRes : Except String Unit)
    (dialRes : Except String Conn) (c : ClientState) : ConnectResult :=
  if c.state = State.disconnected then
    match encRes with
    | Except.error e =>
        { err := some (GErr.other e)
          st := c
          steps := [Step.newEncoder AudioSampleRate 1 OpusApplication.voip] }
    | Except.ok _ =>
        match dialRes with
        | Except.error e =>
            { err := some (GErr.other e)
              st := { c with
                audioEncoder := none
                audioSequence := 0
                audioTarget := none }
              steps := [Step.newEncoder AudioSampleRate 1 OpusApplication.voip,
                        Step.dial c.config.address] }
        | Except.ok conn =>
            { err := none
              st := { c with
                audioEncoder := some initialEncoder
                audioSequence := 0
                audioTarget := none
                connection := some conn
                users := some []
                channels := some []
                contextActions := some []
                state := State.connected }
              steps := [Step.newEncoder AudioSampleRate 1 OpusApplication.voip,
                        Step.dial c.config.address,
                        Step.allocWorld,
                        Step.setConnected,
                        Step.spawnRead,
                        Step.spawnPing,
                        Step.send (versionMsg goos goarch),
                        Step.send (authMsg c.config)] }
  else { err := some GErr.errState, st := c, steps := [] }

/-- The step order asserted by the spec sentence "It performs, in order: TLS
dial with configured dialer and TLS configuration; create audio encoder (Opus,
1 channel, VoIP profile, VBR off); allocate empty world model; set state to
Connected; launch the read fiber and the keep-alive fiber; send a Version
message followed by an Authenticate message".  This definition follows the
spec words, to be compared with the trace of `Connect`. -/
def specClaimedConnectSteps (goos goarch : String) (cfg : Config) : List Step :=
  [Step.dial cfg.address,
   Step.newEncoder AudioSampleRate 1 OpusApplication.voip,
   Step.allocWorld,
   Step.setConnected,
   Step.spawnRead,
   Step.spawnPing,
   Step.send (versionMsg goos goarch),
   Step.send (authMsg cfg)]

/-- A channel of the replicated channel tree (channel.go lines 8-19): the id,
the name, and the ordered list of child channels.  The client back-pointer is
passed explicitly to the request methods; the remaining fields are not read by
the code under verification. -/
inductive ChannelT where
  | mk (id : Nat) (name : String) (children : List ChannelT)

/-- The id field of a channel. -/
def ChannelT.id : ChannelT → Nat
  | ChannelT.mk i _ _ => i

/-- The name field of a channel (channel.go Name). -/
def ChannelT.name : ChannelT → String
  | ChannelT.mk _ n _ => n

/-- The children field of a channel (channel.go Children). -/
def ChannelT.children : ChannelT → List ChannelT
  | ChannelT.mk _ _ cs => cs

mutual
/-- Find (channel.go lines 111-121): an empty name sequence returns the
receiver; otherwise scan the children in order for the first one named like
the head and recurse into it with the tail, returning nil when no child
matches. -/
def ChannelT.find : ChannelT → List String → Option ChannelT
  | c, [] => some c
  | ChannelT.mk _ _ children, n :: rest => ChannelT.findIn children n rest

/-- The child scan inside Find: the range loop over c.children. -/
def ChannelT.findIn : List ChannelT → String → List String → Option ChannelT
  | [], _, _ => none
  | child :: cs, n, rest =>
      if child.name = n then child.find rest else ChannelT.findIn cs n rest
end

/-- Channel.Add (channel.go lines 56-63): send a ChannelState whose Parent is
this channel's id with the requested name and temporary flag.  The pair is the
client after the call and the frames written. -/
def channelAdd (ch : ChannelT) (nm : String) (temporary : Bool)
    (cl : ClientState) : ClientState × List Msg :=
  let r := Send cl (Msg.channelState none (some ch.id) (some nm) none (some temporary))
  (r.1, r.2.2)

/-- Channel.Remove (channel.go lines 67-72): send a ChannelRemove for this
channel's id. -/
def channelRemove (ch : ChannelT) (cl : ClientState) : ClientState × List Msg :=
  let r := Send cl (Msg.channelRemove ch.id)
  (r.1, r.2.2)

/-- Channel.SetName (channel.go lines 81-87): send a ChannelState carrying this
channel's id and the new name. -/
def channelSetName (ch : ChannelT) (nm : String) (cl : ClientState) :
    ClientState × List Msg :=
  let r := Send cl (Msg.channelState (some ch.id) none (some nm) none none)
  (r.1, r.2.2)

/-- Channel.SetDescription (channel.go lines 95-101): send a ChannelState
carrying this channel's id and the new description. -/
def channelSetDescription (ch : ChannelT) (desc : String) (cl : ClientState) :
    ClientState × List Msg :=
  let r := Send cl (Msg.channelState (some ch.id) none none (some desc) none)
  (r.1, r.2.2)

/-- SetVoiceTarget (client.go lines 299-301): assign the audioTarget field;
nothing is written to the wire. -/
def SetVoiceTarget (cl : ClientState) (target : Option Nat) :
    ClientState × List Msg :=
  ({ cl with audioTarget := target }, [])

/-- A sample configuration used by the concrete witnesses. -/
def cfg0 : Config :=
  { address := "example.com:64738"
    username := "alice"
    password := "pw"
    tokens := ["tok"]
    hasListener := true }

/-- A freshly created client for cfg0. -/
def client0 : ClientState :=
  { config := cfg0
    state := State.disconnected
    self := none
    serverVersion := none
    connection := none
    users := none
    channels := none
    contextActions := none
    audioEncoder := none
    audioSequence := 0
    audioTarget := none }

/-- A connected client for cfg0, as produced by a successful Connect. -/
def clientConn : ClientState :=
  { client0 with
    state := State.connected
    connection := some 1
    users := some []
    channels := some []
    contextActions := some []
    audioEncoder := some initialEncoder }

/-- A handler that ignores its payload and emits nothing, used as a concrete
table entry in witnesses. -/
def handler0 : Handler := fun st _ => (st, [])

/-- A concrete handler table registering only type id 3. -/
def handlers0 : Nat → Option Handler :=
  fun t => if t = 3 then some handler0 else none

/-- A concrete channel used by the witnesses. -/
def chan0 : ChannelT := ChannelT.mk 4 "Lobby" []

/-- The child scan of Find returns the recursive result on the first child
whose name matches, and none when no child matches. -/
theorem findIn_eq (cs : List ChannelT) (n : String) (rest : List String) :
    ChannelT.findIn cs n rest
      = (match cs.find? (fun ch => ch.name == n) with
         | some child => child.find rest
         | none => none) := by
  induction cs with
  | nil => simp [ChannelT.findIn]
  | cons child cs ih =>
      by_cases h : child.name = n
      · simp [ChannelT.findIn, List.find?_cons, h]
      · simp [ChannelT.findIn, List.find?_cons, h, ih]

/-- C6: Find returns the receiver on the empty name sequence; on a non-empty
sequence it recurses into the first child named like the head with the tail as
the remaining path, and returns none when no child carries that name. -/
theorem find_path_spec (c : ChannelT) (n : String) (rest : List String) :
    c.find [] = some c
    ∧ c.find (n :: rest)
      = (match c.children.find? (fun ch => ch.name == n) with
         | some child => child.find rest
         | none => none) := by
  constructor
  · cases c with
    | mk i nm cs => simp [ChannelT.find]
  · cases c with
    | mk i nm cs => simp [ChannelT.find, ChannelT.children, findIn_eq]

/-- C9: NewClient maps a nil config to a nil client, and a non-nil config to a
client in state Disconnected holding that config with every other field at its
zero value. -/
theorem newClient_spec (cfg : Config) :
    NewClient none = none
    ∧ NewClient (some cfg) = some
        { config := cfg
          state := State.disconnected
          self := none
          serverVersion := none
          connection := none
          users := none
          channels := none
          contextActions := none
          audioEncoder := none
          audioSequence := 0
          audioTarget := none } :=
  ⟨rfl, rfl⟩

/-- C3: Connect returns ErrState exactly when the state is not Disconnected,
and in that case modifies no field and performs no step; from the Disconnected
state the returned error is never ErrState. -/
theorem connect_invalid_state (goos goarch : String) (encRes : Except String Unit)
    (dialRes : Except String Conn) (c c2 : ClientState)
    (h : ¬ c.state = State.disconnected) (h2 : c2.state = State.disconnected) :
    (Connect goos goarch encRes dialRes c).err = some GErr.errState
    ∧ (Connect goos goarch encRes dialRes c).st = c
    ∧ (Connect goos goarch encRes dialRes c).steps = []
    ∧ ¬ (Connect goos goarch encRes dialRes c2).err = some GErr.errState := by
  refine ⟨by simp [Connect, h], by simp [Connect, h], by simp [Connect, h], ?_⟩
  cases encRes with
  | error e => simp [Connect, h2]
  | ok u =>
      cases dialRes with
      | error e => simp [Connect, h2]
      | ok k => simp [Connect, h2]

/-- Witness for connect_invalid_state at a connected and a fresh client. -/
theorem connect_invalid_state_witness :
    (¬ clientConn.state = State.disconnected)
    ∧ client0.state = State.disconnected
    ∧ ((Connect "linux" "amd64" (Except.ok ()) (Except.ok 1) clientConn).err
        = some GErr.errState
       ∧ (Connect "linux" "amd64" (Except.ok ()) (Except.ok 1) clientConn).st = clientConn
       ∧ (Connect "linux" "amd64" (Except.ok ()) (Except.ok 1) clientConn).steps = []
       ∧ ¬ (Connect "linux" "amd64" (Except.ok ()) (Except.ok 1) client0).err
          = some GErr.errState) :=
  ⟨by decide, by decide,
    connect_invalid_state "linux" "amd64" (Except.ok ()) (Except.ok 1) clientConn client0
      (by decide) (by decide)⟩

/-- C5: Send fails with ErrState and writes nothing when the connection is nil,
and encodes and writes the message when the connection is live. -/
theorem send_connection_spec (c c2 : ClientState) (m m2 : Msg) (k : Conn)
    (hnil : c.connection = none) (hk : c2.connection = some k) :
    Send c m = (c, Except.error GErr.errState, [])
    ∧ Send c2 m2 = (c2, Except.ok (), [m2]) := by
  constructor <;> simp [Send, Msg.writeTo, hnil, hk]

/-- Witness for send_connection_spec at a disconnected and a connected client. -/
theorem send_connection_spec_witness :
    client0.connection = none
    ∧ clientConn.connection = some 1
    ∧ (Send client0 Msg.userList = (client0, Except.error GErr.errState, [])
       ∧ Send clientConn Msg.userList = (clientConn, Except.ok (), [Msg.userList])) :=
  ⟨rfl, rfl, send_connection_spec client0 clientConn Msg.userList Msg.userList 1 rfl rfl⟩

/-- C2: on a client with a live connection, close clears the connection, sets
the state to Disconnected, clears users, channels, contextActions, self and the
audio encoder, and delivers exactly one Disconnect event; a second close on the
resulting client returns ErrState, changes no field and delivers no event. -/
theorem close_idempotent (c : ClientState) (k : Conn) (dt dt2 : DisconnectType)
    (hconn : c.connection = some k) (hl : c.config.hasListener = true) :
    close c dt = (none, clearedClient c, [GEvent.disconnect dt])
    ∧ (clearedClient c).connection = none
    ∧ (clearedClient c).state = State.disconnected
    ∧ (clearedClient c).users = none
    ∧ (clearedClient c).channels = none
    ∧ (clearedClient c).contextActions = none
    ∧ (clearedClient c).self = none
    ∧ (clearedClient c).audioEncoder = none
    ∧ close (clearedClient c) dt2 = (some GErr.errState, clearedClient c, []) := by
  refine ⟨?_, rfl, rfl, rfl, rfl, rfl, rfl, rfl, ?_⟩
  · simp [close, hconn, hl]
  · simp [close, clearedClient]

/-- Witness for close_idempotent: a first close with the User tag followed by a
second close with the Error tag on a concrete connected client. -/
theorem close_idempotent_witness :
    clientConn.connection = some 1
    ∧ clientConn.config.hasListener = true
    ∧ (close clientConn DisconnectType.user
        = (none, clearedClient clientConn, [GEvent.disconnect DisconnectType.user])
       ∧ (clearedClient clientConn).connection = none
       ∧ (clearedClient clientConn).state = State.disconnected
       ∧ (clearedClient clientConn).users = none
       ∧ (clearedClient clientConn).channels = none
       ∧ (clearedClient clientConn).contextActions = none
       ∧ (clearedClient clientConn).self = none
       ∧ (clearedClient clientConn).audioEncoder = none
       ∧ close (clearedClient clientConn) DisconnectType.error
          = (some GErr.errState, clearedClient clientConn, [])) :=
  ⟨rfl, rfl, close_idempotent clientConn 1 DisconnectType.user DisconnectType.error rfl rfl⟩

/-- C1: a packet whose declared length exceeds maximumPacketSize makes the read
loop return before reading the payload, and the deferred close then delivers
exactly one Disconnect event tagged Error; a packet whose length is within the
bound and has a registered handler is read and dispatched normally. -/
theorem oversize_packet_closes (handlers : Nat → Option Handler) (c : ClientState)
    (k : Conn) (hconn : c.connection = some k) (hl : c.config.hasListener = true)
    (pt1 pl1 : Nat) (pay1 : List Nat) (rest1 : List ReadItem)
    (hbig : pl1 > maximumPacketSize)
    (pt2 pl2 : Nat) (pay2 : List Nat) (rest2 : List ReadItem) (h2 : Handler)
    (hle : pl2 ≤ maximumPacketSize) (hlen : pl2 ≤ pay2.length)
    (hh : handlers pt2 = some h2) :
    readRoutine handlers (ReadItem.packet pt1 pl1 pay1 :: rest1) c
      = (clearedClient c, [GEvent.disconnect DisconnectType.error])
    ∧ readLoop handlers (ReadItem.packet pt2 pl2 pay2 :: rest2) c
      = ((readLoop handlers rest2 (h2 c (pay2.take pl2)).1).1,
          (h2 c (pay2.take pl2)).2
            ++ (readLoop handlers rest2 (h2 c (pay2.take pl2)).1).2) := by
  constructor
  · have hx : readLoop handlers (ReadItem.packet pt1 pl1 pay1 :: rest1) c = (c, []) := by
      simp [readLoop, hbig]
    simp [readRoutine, hx, close, hconn, hl]
  · have hle2 : ¬ pl2 > maximumPacketSize := Nat.not_lt.mpr hle
    have hlen2 : ¬ pay2.length < pl2 := Nat.not_lt.mpr hlen
    simp [readLoop, hle2, hlen2, hh]

/-- Witness for oversize_packet_closes: a 10 MiB + 1 byte header terminates a
concrete connected client with one Error disconnect, while a one-byte packet of
registered type 3 is dispatched. -/
theorem oversize_packet_closes_witness :
    clientConn.connection = some 1
    ∧ clientConn.config.hasListener = true
    ∧ 10485761 > maximumPacketSize
    ∧ 1 ≤ maximumPacketSize
    ∧ handlers0 3 = some handler0
    ∧ (readRoutine handlers0 [ReadItem.packet 0 10485761 []] clientConn
        = (clearedClient clientConn, [GEvent.disconnect DisconnectType.error])
       ∧ readLoop handlers0 [ReadItem.packet 3 1 [7, 8]] clientConn
        = ((readLoop handlers0 [] (handler0 clientConn ([7, 8].take 1)).1).1,
            (handler0 clientConn ([7, 8].take 1)).2
              ++ (readLoop handlers0 [] (handler0 clientConn ([7, 8].take 1)).1).2)) :=
  ⟨rfl, rfl, by decide, by decide, rfl,
    oversize_packet_closes handlers0 clientConn 1 rfl rfl 0 10485761 [] [] (by decide)
      3 1 [7, 8] [] handler0 (by decide) (by decide) rfl⟩

/-- C7: a packet whose type id has no registered handler is consumed without
changing the client, without emitting an event, and the loop continues with
the remaining packets. -/
theorem unknown_type_id_dropped (handlers : Nat → Option Handler)
    (pt pl : Nat) (payload : List Nat) (rest : List ReadItem) (c : ClientState)
    (hunk : handlers pt = none) (hle : pl ≤ maximumPacketSize)
    (hlen : pl ≤ payload.length) :
    readLoop handlers (ReadItem.packet pt pl payload :: rest) c
      = readLoop handlers rest c := by
  have h1 : ¬ pl > maximumPacketSize := Nat.not_lt.mpr hle
  have h2 : ¬ payload.length < pl := Nat.not_lt.mpr hlen
  simp [readLoop, h1, h2, hunk]

/-- Witness for unknown_type_id_dropped: type id 5 is unregistered in the
concrete table, so its packet is skipped. -/
theorem unknown_type_id_dropped_witness :
    handlers0 5 = none
    ∧ 1 ≤ maximumPacketSize
    ∧ readLoop handlers0 [ReadItem.packet 5 1 [9]] client0
      = readLoop handlers0 [] client0 :=
  ⟨rfl, by decide, unknown_type_id_dropped handlers0 5 1 [9] [] client0 rfl (by decide) (by decide)⟩

/-- C8: the channel request methods send exactly one protocol message and leave
the client unchanged, and SetVoiceTarget sends nothing and changes only the
audioTarget field. -/
theorem requests_do_not_mutate (ch : ChannelT) (nm desc : String) (temporary : Bool)
    (cl : ClientState) (k : Conn) (t : Option Nat) (hk : cl.connection = some k) :
    channelAdd ch nm temporary cl
      = (cl, [Msg.channelState none (some ch.id) (some nm) none (some temporary)])
    ∧ channelRemove ch cl = (cl, [Msg.channelRemove ch.id])
    ∧ channelSetName ch nm cl
      = (cl, [Msg.channelState (some ch.id) none (some nm) none none])
    ∧ channelSetDescription ch desc cl
      = (cl, [Msg.channelState (some ch.id) none none (some desc) none])
    ∧ SetVoiceTarget cl t = ({ cl with audioTarget := t }, [])
    ∧ (SetVoiceTarget cl t).1.config = cl.config
    ∧ (SetVoiceTarget cl t).1.state = cl.state
    ∧ (SetVoiceTarget cl t).1.self = cl.self
    ∧ (SetVoiceTarget cl t).1.connection = cl.connection
    ∧ (SetVoiceTarget cl t).1.users = cl.users
    ∧ (SetVoiceTarget cl t).1.channels = cl.channels
    ∧ (SetVoiceTarget cl t).1.contextActions = cl.contextActions
    ∧ (SetVoiceTarget cl t).1.audioEncoder = cl.audioEncoder
    ∧ (SetVoiceTarget cl t).1.audioSequence = cl.audioSequence
    ∧ (SetVoiceTarget cl t).1.audioTarget = t := by
  refine ⟨?_, ?_, ?_, ?_, rfl, rfl, rfl, rfl, rfl, rfl, rfl, rfl, rfl, rfl, rfl⟩ <;>
    simp [channelAdd, channelRemove, channelSetName, channelSetDescription,
      Send, Msg.writeTo, hk]

/-- Witness for requests_do_not_mutate at a concrete connected client and
channel. -/
theorem requests_do_not_mutate_witness :
    clientConn.connection = some 1
    ∧ (channelAdd chan0 "sub" true clientConn
        = (clientConn, [Msg.channelState none (some chan0.id) (some "sub") none (some true)])
       ∧ channelRemove chan0 clientConn = (clientConn, [Msg.channelRemove chan0.id])
       ∧ channelSetName chan0 "sub" clientConn
        = (clientConn, [Msg.channelState (some chan0.id) none (some "sub") none none])
       ∧ channelSetDescription chan0 "d" clientConn
        = (clientConn, [Msg.channelState (some chan0.id) none none (some "d") none])
       ∧ SetVoiceTarget clientConn (some 2)
        = ({ clientConn with audioTarget := some 2 }, [])
       ∧ (SetVoiceTarget clientConn (some 2)).1.config = clientConn.config
       ∧ (SetVoiceTarget clientConn (some 2)).1.state = clientConn.state
       ∧ (SetVoiceTarget clientConn (some 2)).1.self = clientConn.self
       ∧ (SetVoiceTarget clientConn (some 2)).1.connection = clientConn.connection
       ∧ (SetVoiceTarget clientConn (some 2)).1.users = clientConn.users
       ∧ (SetVoiceTarget clientConn (some 2)).1.channels = clientConn.channels
       ∧ (SetVoiceTarget clientConn (some 2)).1.contextActions = clientConn.contextActions
       ∧ (SetVoiceTarget clientConn (some 2)).1.audioEncoder = clientConn.audioEncoder
       ∧ (SetVoiceTarget clientConn (some 2)).1.audioSequence = clientConn.audioSequence
       ∧ (SetVoiceTarget clientConn (some 2)).1.audioTarget = some 2) :=
  ⟨rfl, requests_do_not_mutate chan0 "sub" "d" true clientConn 1 (some 2) rfl⟩

/-- Counterexample for C4 as stated: on a successful run from a fresh client,
the trace of Connect does not follow the order claimed by the spec (the dial
is claimed first, but the code creates the encoder first). -/
theorem connect_claimed_order_false :
    ¬ (Connect "linux" "amd64" (Except.ok ()) (Except.ok 1) client0).steps
      = specClaimedConnectSteps "linux" "amd64" cfg0 := by decide

/-- C4 (amended): a successful Connect performs, in order: encoder creation
(Opus profile VoIP, 1 channel, VBR off) with the audio sequence counter reset
to zero; the TLS dial; world-model allocation; the transition to Connected;
spawning the read then the keep-alive fiber; sending Version then Authenticate
with the configured username, password and tokens and opus set. -/
theorem connect_success_order (goos goarch : String) (conn : Conn) (c : ClientState)
    (h : c.state = State.disconnected) :
    (Connect goos goarch (Except.ok ()) (Except.ok conn) c).err = none
    ∧ (Connect goos goarch (Except.ok ()) (Except.ok conn) c).steps
      = [Step.newEncoder AudioSampleRate 1 OpusApplication.voip,
         Step.dial c.config.address,
         Step.allocWorld,
         Step.setConnected,
         Step.spawnRead,
         Step.spawnPing,
         Step.send (versionMsg goos goarch),
         Step.send (authMsg c.config)]
    ∧ (Connect goos goarch (Except.ok ()) (Except.ok conn) c).st.audioEncoder
      = some initialEncoder
    ∧ (Connect goos goarch (Except.ok ()) (Except.ok conn) c).st.audioSequence = 0
    ∧ (Connect goos goarch (Except.ok ()) (Except.ok conn) c).st.state
      = State.connected := by
  refine ⟨?_, ?_, ?_, ?_, ?_⟩ <;> simp [Connect, h]

/-- Witness for connect_success_order on a fresh client. -/
theorem connect_success_order_witness :
    client0.state = State.disconnected
    ∧ ((Connect "linux" "amd64" (Except.ok ()) (Except.ok 1) client0).err = none
       ∧ (Connect "linux" "amd64" (Except.ok ()) (Except.ok 1) client0).steps
        = [Step.newEncoder AudioSampleRate 1 OpusApplication.voip,
           Step.dial client0.config.address,
           Step.allocWorld,
           Step.setConnected,
           Step.spawnRead,
           Step.spawnPing,
           Step.send (versionMsg "linux" "amd64"),
           Step.send (authMsg client0.config)]
       ∧ (Connect "linux" "amd64" (Except.ok ()) (Except.ok 1) client0).st.audioEncoder
        = some initialEncoder
       ∧ (Connect "linux" "amd64" (Except.ok ()) (Except.ok 1) client0).st.audioSequence = 0
       ∧ (Connect "linux" "amd64" (Except.ok ()) (Except.ok 1) client0).st.state
        = State.connected) :=
  ⟨rfl, connect_success_order "linux" "amd64" 1 client0 rfl⟩

/-- C10: when the encoder cannot be created, Connect returns the underlying
error with the client entirely unchanged; when the TLS dial fails, Connect
returns the underlying error with the client still Disconnected, the
connection nil and the audio encoder nil. -/
theorem connect_failure_atomic (goos goarch e e2 : String)
    (dialRes : Except String Conn) (c : ClientState)
    (hst : c.state = State.disconnected) (hconn : c.connection = none)
    (henc : c.audioEncoder = none) :
    (Connect goos goarch (Except.error e) dialRes c).err = some (GErr.other e)
    ∧ (Connect goos goarch (Except.error e) dialRes c).st = c
    ∧ (Connect goos goarch (Except.error e) dialRes c).st.state = State.disconnected
    ∧ (Connect goos goarch (Except.error e) dialRes c).st.connection = none
    ∧ (Connect goos goarch (Except.error e) dialRes c).st.audioEncoder = none
    ∧ (Connect goos goarch (Except.ok ()) (Except.error e2) c).err
      = some (GErr.other e2)
    ∧ (Connect goos goarch (Except.ok ()) (Except.error e2) c).st.state
      = State.disconnected
    ∧ (Connect goos goarch (Except.ok ()) (Except.error e2) c).st.connection = none
    ∧ (Connect goos goarch (Except.ok ()) (Except.error e2) c).st.audioEncoder
      = none := by
  refine ⟨?_, ?_, ?_, ?_, ?_, ?_, ?_, ?_, ?_⟩ <;> simp [Connect, hst, hconn, henc]

/-- Witness for connect_failure_atomic on a fresh client with an encoder error
and a dial error. -/
theorem connect_failure_atomic_witness :
    client0.state = State.disconnected
    ∧ client0.connection = none
    ∧ client0.audioEncoder = none
    ∧ ((Connect "linux" "amd64" (Except.error "enc") (Except.ok 1) client0).err
        = some (GErr.other "enc")
       ∧ (Connect "linux" "amd64" (Except.error "enc") (Except.ok 1) client0).st = client0
       ∧ (Connect "linux" "amd64" (Except.error "enc") (Except.ok 1) client0).st.state
        = State.disconnected
       ∧ (Connect "linux" "amd64" (Except.error "enc") (Except.ok 1) client0).st.connection
        = none
       ∧ (Connect "linux" "amd64" (Except.error "enc") (Except.ok 1) client0).st.audioEncoder
        = none
       ∧ (Connect "linux" "amd64" (Except.ok ()) (Except.error "dial") client0).err
        = some (GErr.other "dial")
       ∧ (Connect "linux" "amd64" (Except.ok ()) (Except.error "dial") client0).st.state
        = State.disconnected
       ∧ (Connect "linux" "amd64" (Except.ok ()) (Except.error "dial") client0).st.connection
        = none
       ∧ (Connect "linux" "amd64" (Except.ok ()) (Except.error "dial") client0).st.audioEncoder
        = none) :=
  ⟨rfl, rfl, rfl,
    connect_failure_atomic "linux" "amd64" "enc" "dial" (Except.ok 1) client0 rfl rfl rfl⟩

end Gumble
